import Mathlib

/-!
# Verification of the request-dispatch and response-normalization layer
of the `claude-code-openai-mcp` server.

This file gives a shallow embedding of the core of the repository
(the `OpenAIClient` class in `openai-client.ts`, the configuration loader in
`config.ts`, and the tool-dispatch handlers in `index.ts`) and proves or
refutes the specification's claims about it.

Conventions of the embedding:
* JavaScript strings are Lean `String`s; `s.includes(pat)` is substring search.
* `undefined` / absent properties are `Option.none`; JavaScript truthiness of
  a string value (`undefined`, `""` falsy) is `jsTruthyStr`.
* `NaN` produced by `parseInt` is modelled as `Option.none` on the numeric
  side, with JS comparison semantics (`NaN <= 0` is `false`) made explicit.
* Asynchronous upstream calls are modelled by passing the upstream response
  (or provider file id) as an explicit argument; disk writes performed by a
  handler are returned as an explicit list of `(path, payload)` pairs.
-/

/-! ## JS-flavoured string helpers -/

/-- Does `pat` occur as a contiguous run of `l`? -/
def containsSubAux (pat : List Char) : List Char → Bool
  | [] => pat.isEmpty
  | c :: rest => pat.isPrefixOf (c :: rest) || containsSubAux pat rest

/-- Substring test, modelling JavaScript `s.includes(pat)`. -/
def strContainsSubstr (s pat : String) : Bool :=
  containsSubAux pat.data s.data

/-- JavaScript truthiness of a possibly-absent string
(`undefined` and `""` are falsy). -/
def jsTruthyStr : Option String → Bool
  | none => false
  | some s => !s.data.isEmpty

/-- JavaScript `v || dflt` for a possibly-absent string value. -/
def jsOrDefault (v : Option String) (dflt : String) : String :=
  if jsTruthyStr v then v.getD "" else dflt

/-- ASCII lowercasing of one character (models `toLowerCase` on the
ASCII-only strings the code applies it to, such as file extensions). -/
def lowerChar (c : Char) : Char :=
  if 'A' ≤ c ∧ c ≤ 'Z' then Char.ofNat (c.toNat + 32) else c

/-- ASCII `String.toLowerCase`. -/
def lowerStr (s : String) : String :=
  ⟨s.data.map lowerChar⟩

/-- `path.basename` for POSIX-style paths without a trailing slash:
the characters after the last `/`. -/
def basenameStr (p : String) : String :=
  ⟨(p.data.reverse.takeWhile (· ≠ '/')).reverse⟩

/-- Node's `path.extname`: the portion of the basename from its last `.`
to the end; `""` when the basename has no `.` or starts with its only `.`. -/
def extname (p : String) : String :=
  let bRev := p.data.reverse.takeWhile (· ≠ '/')
  let pre := bRev.takeWhile (· ≠ '.')
  if pre.length = bRev.length then ""
  else if pre.length + 1 = bRev.length then ""
  else ⟨'.' :: pre.reverse⟩

/-- JavaScript `s.slice(0, -k)`.  Note the JS pitfall that is relevant below:
for `k = 0` the call is `s.slice(0, -0) = s.slice(0, 0) = ""`, not `s`. -/
def sliceToNegEnd (s : String) (k : Nat) : String :=
  if k = 0 then "" else ⟨s.data.take (s.data.length - k)⟩

/-- `timestamp.replace(/[:.]/g, '-')` from `getAutoSavePath`. -/
def sanitizeTs (s : String) : String :=
  ⟨s.data.map (fun c => if c = ':' ∨ c = '.' then '-' else c)⟩

/-- Decimal digit to character. -/
def digitChar10 (d : Nat) : Char :=
  match d with
  | 0 => '0' | 1 => '1' | 2 => '2' | 3 => '3' | 4 => '4'
  | 5 => '5' | 6 => '6' | 7 => '7' | 8 => '8' | _ => '9'

/-- Decimal digits of `n`, least-significant first; `fuel`-structured so that
it reduces definitionally (`fuel ≥ n` suffices for correctness). -/
def decRevAux : Nat → Nat → List Char
  | _, 0 => []
  | 0, _ + 1 => []
  | f + 1, n + 1 => digitChar10 ((n + 1) % 10) :: decRevAux f ((n + 1) / 10)

/-- Decimal rendering of a natural number, modelling JavaScript `${n}`
for a non-negative integer `n`. -/
def decRepr (n : Nat) : String :=
  if n = 0 then "0" else ⟨(decRevAux n n).reverse⟩

/-- Inverse reading of a little-endian decimal digit string. -/
def ofDecRev : List Char → Nat
  | [] => 0
  | c :: cs => (c.toNat - 48) + 10 * ofDecRev cs

theorem unDigit_digitChar10 : ∀ d, d < 10 → (digitChar10 d).toNat - 48 = d := by
  decide

theorem ofDecRev_decRevAux : ∀ (fuel n : Nat), n ≤ fuel → ofDecRev (decRevAux fuel n) = n := by
  intro fuel
  induction fuel with
  | zero => intro n hn; interval_cases n; rfl
  | succ f ih =>
    intro n hn
    match n with
    | 0 => rfl
    | m + 1 =>
      have hdiv : (m + 1) / 10 ≤ f := by
        have := Nat.div_lt_self (Nat.succ_pos m) (by norm_num : 1 < 10)
        omega
      simp only [decRevAux, ofDecRev, ih _ hdiv,
        unDigit_digitChar10 _ (Nat.mod_lt _ (by norm_num))]
      exact Nat.mod_add_div (m + 1) 10

theorem decRepr_zero_iff (n : Nat) : decRepr n = "0" → n = 0 := by
  intro h
  by_contra hn
  have hd : decRepr n = ⟨(decRevAux n n).reverse⟩ := by
    simp [decRepr, hn]
  rw [hd] at h
  have hlist : (decRevAux n n).reverse = ['0'] := congrArg String.data h
  have hrev : decRevAux n n = ['0'] := by
    have := congrArg List.reverse hlist
    simpa using this
  have hofs := ofDecRev_decRevAux n n le_rfl
  rw [hrev] at hofs
  exact hn (hofs.symm.trans (by decide))

theorem decRepr_injective : Function.Injective decRepr := by
  intro m n h
  by_cases hm : m = 0
  · by_cases hn : n = 0
    · omega
    · subst hm
      exact absurd (decRepr_zero_iff n h.symm) hn
  · by_cases hn : n = 0
    · subst hn
      exact absurd (decRepr_zero_iff m h) hm
    · have hm' : decRepr m = ⟨(decRevAux m m).reverse⟩ := by simp [decRepr, hm]
      have hn' : decRepr n = ⟨(decRevAux n n).reverse⟩ := by simp [decRepr, hn]
      rw [hm', hn'] at h
      have hlist : (decRevAux m m).reverse = (decRevAux n n).reverse :=
        congrArg String.data h
      have hl : decRevAux m m = decRevAux n n := by
        have := congrArg List.reverse hlist
        simpa using this
      have := congrArg ofDecRev hl
      rwa [ofDecRev_decRevAux m m le_rfl, ofDecRev_decRevAux n n le_rfl] at this

/-! ## Error classifier (`OpenAIClient.handleError`, openai-client.ts lines 609-636) -/

/-- The shape of a raised JavaScript failure, as probed by `handleError`:
its `message`, its HTTP `status` (set on OpenAI SDK API errors), and its
low-level connection error `code`. -/
structure RawError where
  message : Option String
  status : Option Nat
  code : Option String
deriving DecidableEq

/-- `error.message?.includes(pat)` (optional chaining: absent message
yields a falsy result). -/
def msgIncludes (e : RawError) (pat : String) : Bool :=
  match e.message with
  | some m => strContainsSubstr m pat
  | none => false

/-- The six user-facing error categories of the classifier.  `unknown`
carries the raw message (`OpenAI API error: ${error.message || error}`). -/
inductive ErrorCategory
  | timeout
  | authInvalid
  | rateLimited
  | contentPolicyBlocked
  | networkUnreachable
  | unknown (raw : Option String)
deriving DecidableEq

/-- `OpenAIClient.handleError`, translated clause by clause from
openai-client.ts lines 609-636.  Each returned `new Error(...)` is
abstracted to its category; `unknown` keeps the raw message. -/
def handleError (e : RawError) : ErrorCategory :=
  if e.message = some "Request timeout" then .timeout
  else if e.status = some 401 ∨ e.status = some 403 then .authInvalid
  else if e.status = some 429 then .rateLimited
  else if e.status = some 400 ∧ msgIncludes e "safety" = true then .contentPolicyBlocked
  else if e.code = some "ENOTFOUND" ∨ e.code = some "ECONNREFUSED" ∨ msgIncludes e "fetch" = true then
    .networkUnreachable
  else .unknown e.message

/-- The fixed human-readable template attached to each category
(the argument of each `new Error(...)` in `handleError`). -/
def errorTemplate : ErrorCategory → String
  | .timeout => "OpenAI API request timed out. Please try again."
  | .authInvalid => "Invalid OpenAI API key. Please check your OPENAI_API_KEY environment variable."
  | .rateLimited => "OpenAI API rate limit exceeded. Please wait a moment and try again."
  | .contentPolicyBlocked => "Content blocked by OpenAI\x27s safety filters. Try rephrasing your request."
  | .networkUnreachable => "Failed to connect to OpenAI API: "
  | .unknown _ => "OpenAI API error: "

/-! ## Timeout policy (the `timeoutPromise(this.timeout * k)` argument at
each call site of `OpenAIClient`) -/

/-- One constructor per upstream call site that races `timeoutPromise`. -/
inductive CallClass
  | generate
  | searchWeb
  | generateWithReasoning
  | executeCode
  | fetchUrl
  | uploadViaFilesApi
  | uploadViaInlineText
  | generateImage
  | editImage
  | analyzeImage
  | textToSpeech
  | transcribe
deriving DecidableEq

/-- The deadline (in ms) raced against each upstream call, read off the
`timeoutPromise` argument at the corresponding call site in
openai-client.ts (lines 67, 96, 121, 148, 178, 252, 279, 307, 363, 408,
435 and 461). -/
def deadlineMs (timeout : Nat) : CallClass → Nat
  | .generate => timeout
  | .searchWeb => timeout * 3
  | .generateWithReasoning => timeout * 5
  | .executeCode => timeout * 3
  | .fetchUrl => timeout * 3
  | .uploadViaFilesApi => timeout * 3
  | .uploadViaInlineText => timeout * 3
  | .generateImage => timeout * 3
  | .editImage => timeout * 3
  | .analyzeImage => timeout * 2
  | .textToSpeech => timeout * 2
  | .transcribe => timeout * 3

/-! ## Configuration loader (`loadConfig`, config.ts lines 682-706) -/

/-- The environment variables read by `loadConfig`. -/
structure EnvVars where
  OPENAI_API_KEY : Option String
  OPENAI_DEFAULT_MODEL : Option String
  OPENAI_TIMEOUT : Option String
  OPENAI_OUTPUT_DIR : Option String
deriving DecidableEq

/-- The `Config` record of config.ts.  `timeout` is the JavaScript number
produced by `parseInt`; `none` models `NaN` (parse failure). -/
structure Config where
  apiKey : String
  defaultModel : String
  timeout : Option Int
  outputDir : String
deriving DecidableEq

/-- Value of a little-endian-read decimal digit list (most significant
first, as written). -/
def decValue (cs : List Char) : Nat :=
  cs.foldl (fun acc c => acc * 10 + (c.toNat - 48)) 0

/-- JavaScript `parseInt(s, 10)`: skip leading whitespace, read an optional
sign and then a maximal run of decimal digits; `NaN` (here `none`) when no
digit is read. -/
def parseIntJs (s : String) : Option Int :=
  let cs := s.data.dropWhile (fun c => c = ' ' ∨ c = '\t' ∨ c = '\n' ∨ c = '\r')
  match cs with
  | '-' :: rest =>
    let ds := rest.takeWhile Char.isDigit
    if ds.isEmpty then none else some (-(decValue ds : Int))
  | '+' :: rest =>
    let ds := rest.takeWhile Char.isDigit
    if ds.isEmpty then none else some (decValue ds)
  | _ =>
    let ds := cs.takeWhile Char.isDigit
    if ds.isEmpty then none else some (decValue ds)

/-- JavaScript `x <= 0` on a number that may be `NaN`: every comparison
with `NaN` is `false`. -/
def jsLeZero : Option Int → Bool
  | none => false
  | some n => n ≤ 0

/-- `loadConfig` from config.ts lines 682-706, with `process.env` passed
explicitly and `throw` modelled by `Except.error`. -/
def loadConfig (env : EnvVars) : Except String Config :=
  if jsTruthyStr env.OPENAI_API_KEY = false then
    .error "OpenAI API key not configured. Please set the OPENAI_API_KEY environment variable."
  else
    let defaultModel := jsOrDefault env.OPENAI_DEFAULT_MODEL "gpt-4.1"
    let outputDir := jsOrDefault env.OPENAI_OUTPUT_DIR "./generated-media"
    let timeout : Option Int :=
      if jsTruthyStr env.OPENAI_TIMEOUT = true then parseIntJs (env.OPENAI_TIMEOUT.getD "")
      else some 60000
    if jsLeZero timeout = true then
      .error "OPENAI_TIMEOUT must be a positive number"
    else
      .ok { apiKey := env.OPENAI_API_KEY.getD "", defaultModel, timeout, outputDir }

/-! ## Upstream response model and response extractors
(openai-client.ts lines 470-588) -/

/-- An annotation attached to an `output_text` content part.  The extractor
only looks at `url_citation` annotations (title and url may be absent). -/
inductive Annot
  | urlCitation (title : Option String) (url : Option String)
  | otherAnnot
deriving DecidableEq

/-- A content part of a `message` output item.  The `anns` field models
`part.annotations` (absent on plain parts). -/
inductive ContentPart
  | outputText (text : String) (anns : Option (List Annot))
  | otherPart
deriving DecidableEq

/-- A fragment of a `reasoning` item's `summary` array. -/
inductive SummaryPart
  | summaryText (text : String)
  | otherSummary
deriving DecidableEq

/-- One entry of a `code_interpreter_call` item's `results` array. -/
inductive CodeResult
  | logs (logs : String)
  | otherResult
deriving DecidableEq

/-- One item of the upstream response's `output` array, tagged by kind. -/
inductive OutputItem
  | message (content : Option (List ContentPart))
  | webSearchCall
  | reasoning (summary : Option (List SummaryPart))
  | codeInterpreterCall (code : Option String) (results : Option (List CodeResult))
  | otherItem
deriving DecidableEq

/-- The upstream response as probed by the extractors: an optional
`output` array of heterogeneous items. -/
structure UpstreamResponse where
  output : Option (List OutputItem)
deriving DecidableEq

/-- The `output_text` texts contained in one content part. -/
def partTexts : ContentPart → List String
  | .outputText t _ => [t]
  | .otherPart => []

/-- The `output_text` texts contributed by one output item
(only `message` items with a present `content` array contribute). -/
def itemTexts : OutputItem → List String
  | .message (some parts) => (parts.map partTexts).flatten
  | _ => []

/-- `OpenAIClient.extractText` (openai-client.ts lines 470-485): concatenate
all `output_text` texts of all `message` items in array order; `""` when
nothing was collected or `output` is absent. -/
def extractText (r : UpstreamResponse) : String :=
  match r.output with
  | some items =>
    let textParts := (items.map itemTexts).flatten
    if textParts.length > 0 then String.join textParts else ""
  | none => ""

/-- A harvested citation: title (defaulted) and url. -/
structure Citation where
  title : String
  url : String
deriving DecidableEq

/-- Citation built from one annotation:
`{ title: ann.title || 'Untitled', url: ann.url || '' }`. -/
def citationOfAnnot : Annot → List Citation
  | .urlCitation t u => [{ title := jsOrDefault t "Untitled", url := jsOrDefault u "" }]
  | .otherAnnot => []

/-- Citations harvested from one content part (only `output_text` parts
with a present `annotations` array contribute). -/
def partCitations : ContentPart → List Citation
  | .outputText _ (some anns) => (anns.map citationOfAnnot).flatten
  | _ => []

/-- Citations harvested from one output item (`web_search_call` items
contribute none; `message` items are walked). -/
def itemCitations : OutputItem → List Citation
  | .message (some parts) => (parts.map partCitations).flatten
  | _ => []

/-- The citation list of the whole response before deduplication
(the `citations.push(...)` loop of `extractSearchResponse`). -/
def harvestCitations (r : UpstreamResponse) : List Citation :=
  match r.output with
  | some items => (items.map itemCitations).flatten
  | none => []

/-- The `seen`-set filter of `extractSearchResponse`: drop a citation
whose url was already emitted. -/
def dedupeCitationsAux (seen : List String) : List Citation → List Citation
  | [] => []
  | c :: rest =>
    if c.url ∈ seen then dedupeCitationsAux seen rest
    else c :: dedupeCitationsAux (c.url :: seen) rest

/-- Deduplicate citations by URL, first occurrence wins
(openai-client.ts lines 513-519). -/
def dedupeCitations (l : List Citation) : List Citation :=
  dedupeCitationsAux [] l

/-- The result record of `searchWeb` / `extractSearchResponse`. -/
structure SearchWebResponse where
  text : String
  citations : List Citation
deriving DecidableEq

/-- `OpenAIClient.extractSearchResponse` (openai-client.ts lines 487-522). -/
def extractSearchResponse (r : UpstreamResponse) : SearchWebResponse :=
  { text := extractText r, citations := dedupeCitations (harvestCitations r) }

/-! ## File upload (`OpenAIClient.uploadFile` and helpers,
openai-client.ts lines 187-287) -/

/-- `UPLOAD_SUPPORTED_EXTENSIONS` (openai-client.ts lines 188-193): the
fixed allow-list of extensions accepted by the provider's Files API. -/
def UPLOAD_SUPPORTED_EXTENSIONS : List String :=
  [".c", ".css", ".csv", ".diff", ".html", ".htm", ".java", ".js", ".json",
   ".md", ".markdown", ".pdf", ".php", ".pl", ".pm", ".py", ".rb", ".rst",
   ".scala", ".sh", ".tex", ".txt", ".text", ".xml", ".yaml", ".yml",
   ".srt", ".vtt", ".eml", ".mjs", ".patch"]

/-- The two upload strategies of `uploadFile`. -/
inductive UploadRoute
  | filesApi
  | inlineText
deriving DecidableEq

/-- The strategy selection of `uploadFile` (openai-client.ts lines
203-212): the lowercased extension decides the route. -/
def uploadRoute (filePath : String) : UploadRoute :=
  if lowerStr (extname filePath) ∈ UPLOAD_SUPPORTED_EXTENSIONS then .filesApi
  else .inlineText

/-- The result record of `uploadFile`. -/
structure FileUploadResponse where
  text : String
  fileName : String
  fileId : String
deriving DecidableEq

/-- `query || 'Analyze this file and provide a detailed summary.'` from
`uploadViaInlineText`. -/
def promptTextOf (query : Option String) : String :=
  jsOrDefault query "Analyze this file and provide a detailed summary."

/-- `path.extname(absolutePath).toLowerCase().slice(1) || 'text'` from
`uploadViaInlineText`: the code-fence language tag. -/
def inlineExtTag (filePath : String) : String :=
  jsOrDefault (some ⟨(lowerStr (extname filePath)).data.drop 1⟩) "text"

/-- The full prompt built by `uploadViaInlineText` (openai-client.ts line
272): the file content inlined into the user content block, wrapped in a
fenced code block tagged with the extension. -/
def inlineFullPrompt (filePath fileContent : String) (query : Option String) : String :=
  "File: " ++ basenameStr filePath ++ "\n\n```" ++ inlineExtTag filePath ++ "\n"
    ++ fileContent ++ "\n```\n\n" ++ promptTextOf query

/-- `OpenAIClient.uploadFile` (openai-client.ts lines 195-287), with the
upstream interactions made explicit: `providerFileId` is the id returned by
`client.files.create` on the Files-API route, and `up` is the upstream
response of the follow-up `responses.create` call.  The second component
of the result is the inline prompt sent upstream (`none` when the
Files-API route is taken). -/
def uploadFile (filePath fileContent : String) (query : Option String)
    (providerFileId : String) (up : UpstreamResponse) :
    FileUploadResponse × Option String :=
  let fileName := basenameStr filePath
  if lowerStr (extname filePath) ∈ UPLOAD_SUPPORTED_EXTENSIONS then
    -- uploadViaFilesApi (lines 218-260)
    if jsTruthyStr query = false then
      ({ text := "File \x27" ++ fileName ++ "\x27 uploaded successfully.\nFile ID: "
           ++ providerFileId
           ++ "\n\nUse this file_id with the \x27ask\x27 tool\x27s file_ids parameter to ask questions about it.",
         fileName, fileId := providerFileId }, none)
    else
      ({ text := extractText up, fileName, fileId := providerFileId }, none)
  else
    -- uploadViaInlineText (lines 262-287)
    ({ text := extractText up, fileName, fileId := "inline" },
     some (inlineFullPrompt filePath fileContent query))

/-! ## Image result extraction (`OpenAIClient.generateImage` /
`OpenAIClient.editImage`, openai-client.ts lines 289-382) -/

/-- One entry of the upstream images response's `data` array. -/
structure UpstreamImageDatum where
  b64_json : Option String
  revised_prompt : Option String
deriving DecidableEq

/-- The upstream images response (`data` may be absent). -/
structure UpstreamImagesResponse where
  data : Option (List UpstreamImageDatum)
deriving DecidableEq

/-- One normalized image of an `ImageGenerationResponse`. -/
structure GenImage where
  b64 : String
  revisedPrompt : Option String
deriving DecidableEq

/-- The normalized image-generation result. -/
structure ImageGenerationResponse where
  images : List GenImage
deriving DecidableEq

/-- The `if (img.b64_json) images.push(...)` loop shared verbatim by
`generateImage` (lines 310-320) and `editImage` (lines 366-376): keep
exactly the data items whose `b64_json` is truthy. -/
def extractImages (r : UpstreamImagesResponse) : List GenImage :=
  match r.data with
  | some ds =>
    ds.filterMap fun d =>
      if jsTruthyStr d.b64_json = true then
        some { b64 := d.b64_json.getD "", revisedPrompt := d.revised_prompt }
      else none
  | none => []

/-! ## Tool dispatch handlers (index.ts) -/

/-- One part of a tool reply's `content` array. -/
inductive ContentItem
  | text (t : String)
  | image (data : String) (mimeType : String)
deriving DecidableEq

/-- The reply envelope returned across the system boundary.  A handler
that returns `{ content }` without `isError` yields `isError = false`. -/
structure ToolReply where
  content : List ContentItem
  isError : Bool
deriving DecidableEq

/-- `getAutoSavePath` (index.ts lines 410-414):
`{outputDir}/{prefix}-{ISO timestamp with ':' '.' replaced by '-'}.{ext}`;
`path.resolve(outputDir, filename)` is modelled as path joining, and the
current ISO-8601 timestamp is passed in as `now`. -/
def getAutoSavePath (outputDir pfx ext now : String) : String :=
  outputDir ++ "/" ++ (pfx ++ "-" ++ sanitizeTs now ++ "." ++ ext)

/-- The error message of the zero-image branch of the `generate_image`
handler (index.ts line 624). -/
def noImageGeneratedMsg : String :=
  "No image was generated. The model may have declined the request or encountered a safety filter. Try rephrasing your prompt."

/-- The error message of the zero-image branch of the `edit_image`
handler (index.ts line 700). -/
def noEditedImageMsg : String :=
  "No edited image was generated. The model may have declined the request or encountered a safety filter. Try rephrasing your prompt."

/-- The save path computed for image `i` by the `generate_image` handler
(index.ts lines 633-643): the explicit path unchanged when exactly one
image, `base_{i}ext` when several, the auto-generated path otherwise. -/
def genImageSavePath (spArg : Option String) (n : Nat) (outputDir now : String)
    (i : Nat) : String :=
  if jsTruthyStr spArg = true ∧ n = 1 then spArg.getD ""
  else if jsTruthyStr spArg = true then
    let sp := spArg.getD ""
    let ext := extname sp
    let base := sliceToNegEnd sp ext.data.length
    base ++ "_" ++ decRepr i ++ ext
  else getAutoSavePath outputDir "generated" "png" now

/-- The text part pushed for image `i` (index.ts lines 653-657):
`Image {i+1} saved to: {savedTo}` plus the optional revised prompt. -/
def genImageText (i : Nat) (savedTo : String) (rp : Option String) : String :=
  "Image " ++ decRepr (i + 1) ++ " saved to: " ++ savedTo
    ++ (match rp with
        | some p => "\nRevised prompt: " ++ p
        | none => "")

/-- The per-image loop of the `generate_image` handler (index.ts lines
631-658), accumulating the pushed content parts and the disk writes
(`saveImage` calls) as `(path, b64)` pairs.  `i` is the loop index and
`n` the total image count. -/
def genImageLoop (spArg : Option String) (n : Nat) (outputDir now : String) :
    Nat → List GenImage → List ContentItem × List (String × String)
  | _, [] => ([], [])
  | i, img :: rest =>
    let savePath := genImageSavePath spArg n outputDir now i
    let (cs, ws) := genImageLoop spArg n outputDir now (i + 1) rest
    (ContentItem.image img.b64 "image/png"
       :: ContentItem.text (genImageText i savePath img.revisedPrompt) :: cs,
     (savePath, img.b64) :: ws)

/-- The `generate_image` handler after the upstream call (index.ts lines
622-661): the zero-image error branch, or the save-and-reply loop.  The
second component lists the disk writes performed. -/
def generateImageReply (spArg : Option String) (outputDir now : String)
    (result : ImageGenerationResponse) : ToolReply × List (String × String) :=
  if result.images.length = 0 then
    ({ content := [ContentItem.text noImageGeneratedMsg], isError := true }, [])
  else
    let (cs, ws) := genImageLoop spArg result.images.length outputDir now 0 result.images
    ({ content := cs, isError := false }, ws)

/-- The text part pushed by the `edit_image` handler (index.ts lines
717-721). -/
def editImageText (savedTo : String) (rp : Option String) : String :=
  "Edited image saved to: " ++ savedTo
    ++ (match rp with
        | some p => "\nRevised prompt: " ++ p
        | none => "")

/-- The `edit_image` handler after the upstream call (index.ts lines
698-723): the zero-image error branch, or saving `result.images[0]` only
and replying with its binary and path. -/
def editImageReply (spArg : Option String) (outputDir now : String)
    (result : ImageGenerationResponse) : ToolReply × List (String × String) :=
  match result.images with
  | [] => ({ content := [ContentItem.text noEditedImageMsg], isError := true }, [])
  | image :: _ =>
    let savePath :=
      if jsTruthyStr spArg = true then spArg.getD ""
      else getAutoSavePath outputDir "edited" "png" now
    ({ content := [ContentItem.image image.b64 "image/png",
                   ContentItem.text (editImageText savePath image.revisedPrompt)],
       isError := false },
     [(savePath, image.b64)])

/-- The `ask` handler's reply shaping (index.ts lines 444-447): the
generated text is returned as a single text part with no error flag. -/
def askReply (response : String) : ToolReply :=
  { content := [ContentItem.text response], isError := false }

/-! ## Claim C1: error classification precedence -/

/-- **C1.** The error classifier maps every raised failure to exactly one of
the six categories by first-match precedence: timeout sentinel first, then
status 401/403 (AuthInvalid), then 429 (RateLimited), then 400 with a
safety marker (ContentPolicyBlocked), then connection codes or a
network-fetch marker (NetworkUnreachable), else Unknown with the raw
message.  In particular a failure with status 401/403 whose message
matches the network-fetch pattern still classifies AuthInvalid. -/
theorem handleError_first_match_precedence (e : RawError) :
    (e.message = some "Request timeout" → handleError e = .timeout) ∧
    (e.message ≠ some "Request timeout" →
      (e.status = some 401 ∨ e.status = some 403) → handleError e = .authInvalid) ∧
    (e.message ≠ some "Request timeout" →
      ¬(e.status = some 401 ∨ e.status = some 403) →
      e.status = some 429 → handleError e = .rateLimited) ∧
    (e.message ≠ some "Request timeout" →
      ¬(e.status = some 401 ∨ e.status = some 403) →
      ¬(e.status = some 429) →
      e.status = some 400 ∧ msgIncludes e "safety" = true →
      handleError e = .contentPolicyBlocked) ∧
    (e.message ≠ some "Request timeout" →
      ¬(e.status = some 401 ∨ e.status = some 403) →
      ¬(e.status = some 429) →
      ¬(e.status = some 400 ∧ msgIncludes e "safety" = true) →
      (e.code = some "ENOTFOUND" ∨ e.code = some "ECONNREFUSED" ∨ msgIncludes e "fetch" = true) →
      handleError e = .networkUnreachable) ∧
    (e.message ≠ some "Request timeout" →
      ¬(e.status = some 401 ∨ e.status = some 403) →
      ¬(e.status = some 429) →
      ¬(e.status = some 400 ∧ msgIncludes e "safety" = true) →
      ¬(e.code = some "ENOTFOUND" ∨ e.code = some "ECONNREFUSED" ∨ msgIncludes e "fetch" = true) →
      handleError e = .unknown e.message) ∧
    ((e.status = some 401 ∨ e.status = some 403) → msgIncludes e "fetch" = true →
      handleError e = .authInvalid) := by
  refine ⟨?_, ?_, ?_, ?_, ?_, ?_, ?_⟩
  · intro h; simp [handleError, h]
  · intro h1 h2; rcases h2 with h | h <;> simp [handleError, h1, h]
  · intro h1 _ h3; simp [handleError, h1, h3]
  · intro h1 _ _ h4; simp [handleError, h1, h4.1, h4.2]
  · intro h1 h2 h3 h4 h5
    rcases h5 with h | h | h <;> simp [handleError, h1, h2, h3, h4, h]
  · intro h1 h2 h3 h4 h5; simp [handleError, h1, h2, h3, h4, h5]
  · intro hst hf
    have h1 : e.message ≠ some "Request timeout" := by
      intro hm
      rw [show msgIncludes e "fetch" = strContainsSubstr "Request timeout" "fetch" by
            simp [msgIncludes, hm]] at hf
      exact absurd hf (by decide)
    rcases hst with h | h <;> simp [handleError, h1, h]

/-- Witness for C1: a 403 failure whose message matches the network-fetch
pattern classifies AuthInvalid, not NetworkUnreachable. -/
theorem handleError_first_match_precedence_witness :
    handleError { message := some "TypeError: fetch failed", status := some 403, code := none }
      = .authInvalid :=
  (handleError_first_match_precedence
      { message := some "TypeError: fetch failed", status := some 403, code := none }).2.2.2.2.2.2
    (Or.inr rfl) (by decide)

/-! ## Claim C2: timeout deadlines and timeout-sentinel classification -/

/-- **C2.** The deadline raced against each upstream call equals the base
timeout times the fixed per-class multiplier (1x plain generation, 2x
vision analysis and audio synthesis, 3x web search, code execution, URL
fetch, both file-upload paths and transcription, 5x extended reasoning);
and a failure whose message equals the internal timeout sentinel always
classifies Timeout regardless of any HTTP status on the error. -/
theorem deadline_multipliers_and_timeout_sentinel :
    (∀ t : Nat,
      deadlineMs t .generate = t * 1 ∧
      deadlineMs t .analyzeImage = t * 2 ∧
      deadlineMs t .textToSpeech = t * 2 ∧
      deadlineMs t .searchWeb = t * 3 ∧
      deadlineMs t .executeCode = t * 3 ∧
      deadlineMs t .fetchUrl = t * 3 ∧
      deadlineMs t .uploadViaFilesApi = t * 3 ∧
      deadlineMs t .uploadViaInlineText = t * 3 ∧
      deadlineMs t .transcribe = t * 3 ∧
      deadlineMs t .generateWithReasoning = t * 5) ∧
    (∀ e : RawError, e.message = some "Request timeout" → handleError e = .timeout) := by
  constructor
  · intro t
    exact ⟨(Nat.mul_one t).symm, rfl, rfl, rfl, rfl, rfl, rfl, rfl, rfl, rfl⟩
  · intro e h; simp [handleError, h]

/-- Witness for C2: concrete deadline and a timeout-sentinel failure that
carries an HTTP 401 status and a connection code, still Timeout. -/
theorem deadline_multipliers_and_timeout_sentinel_witness :
    deadlineMs 60000 .generateWithReasoning = 60000 * 5 ∧
    handleError { message := some "Request timeout", status := some 401, code := some "ENOTFOUND" }
      = .timeout :=
  ⟨(deadline_multipliers_and_timeout_sentinel.1 60000).2.2.2.2.2.2.2.2.2,
   deadline_multipliers_and_timeout_sentinel.2
     { message := some "Request timeout", status := some 401, code := some "ENOTFOUND" } rfl⟩

/-! ## Claim C3: citation deduplication, first occurrence wins -/

theorem dedupeCitationsAux_sublist (l : List Citation) :
    ∀ seen, List.Sublist (dedupeCitationsAux seen l) l := by
  induction l with
  | nil => intro seen; simp [dedupeCitationsAux]
  | cons a rest ih =>
    intro seen
    by_cases ha : a.url ∈ seen
    · simp only [dedupeCitationsAux, if_pos ha]
      exact (ih seen).trans (List.sublist_cons_self a rest)
    · simp only [dedupeCitationsAux, if_neg ha]
      exact List.Sublist.cons₂ a (ih (a.url :: seen))

theorem dedupeCitationsAux_mem (l : List Citation) :
    ∀ seen c, c ∈ dedupeCitationsAux seen l →
      c.url ∉ seen ∧ l.find? (fun d => d.url == c.url) = some c := by
  induction l with
  | nil => intro seen c hc; simp [dedupeCitationsAux] at hc
  | cons a rest ih =>
    intro seen c hc
    by_cases ha : a.url ∈ seen
    · rw [dedupeCitationsAux, if_pos ha] at hc
      obtain ⟨hns, hfind⟩ := ih seen c hc
      have hne : (a.url == c.url) = false := by
        simp only [beq_eq_false_iff_ne, ne_eq]
        intro h; exact hns (h ▸ ha)
      constructor
      · exact hns
      · simp [List.find?, hne, hfind]
    · rw [dedupeCitationsAux, if_neg ha] at hc
      rcases List.mem_cons.mp hc with rfl | hc'
      · exact ⟨ha, by simp [List.find?]⟩
      · obtain ⟨hns, hfind⟩ := ih (a.url :: seen) c hc'
        have hnseen : c.url ∉ seen := fun h => hns (List.mem_cons_of_mem _ h)
        have hne : (a.url == c.url) = false := by
          simp only [beq_eq_false_iff_ne, ne_eq]
          intro h
          exact hns (h ▸ List.mem_cons_self a.url seen)
        exact ⟨hnseen, by simp [List.find?, hne, hfind]⟩

theorem dedupeCitationsAux_nodup (l : List Citation) :
    ∀ seen, ((dedupeCitationsAux seen l).map Citation.url).Nodup := by
  induction l with
  | nil => intro seen; simp [dedupeCitationsAux]
  | cons a rest ih =>
    intro seen
    by_cases ha : a.url ∈ seen
    · rw [dedupeCitationsAux, if_pos ha]; exact ih seen
    · rw [dedupeCitationsAux, if_neg ha]
      simp only [List.map_cons, List.nodup_cons]
      refine ⟨?_, ih (a.url :: seen)⟩
      intro hmem
      obtain ⟨c, hc, hcu⟩ := List.mem_map.mp hmem
      obtain ⟨hns, _⟩ := dedupeCitationsAux_mem rest (a.url :: seen) c hc
      apply hns
      rw [hcu]
      exact List.mem_cons_self a.url seen

theorem dedupeCitationsAux_covers (l : List Citation) :
    ∀ seen c, c ∈ l → c.url ∉ seen →
      c.url ∈ (dedupeCitationsAux seen l).map Citation.url := by
  induction l with
  | nil => intro seen c hc; simp at hc
  | cons a rest ih =>
    intro seen c hc hns
    by_cases ha : a.url ∈ seen
    · rw [dedupeCitationsAux, if_pos ha]
      rcases List.mem_cons.mp hc with rfl | hc'
      · exact absurd ha hns
      · exact ih seen c hc' hns
    · rw [dedupeCitationsAux, if_neg ha]
      rcases List.mem_cons.mp hc with rfl | hc'
      · simp
      · by_cases hu : c.url = a.url
        · simp [hu]
        · have : c.url ∉ a.url :: seen := by
            intro h
            rcases List.mem_cons.mp h with h' | h'
            · exact hu h'
            · exact hns h'
          simp only [List.map_cons, List.mem_cons]
          exact Or.inr (ih (a.url :: seen) c hc' this)

/-- **C3.** The search-response extractor deduplicates the harvested
citation list by URL: the output is an order-preserving sublist of the
harvest with pairwise-distinct URLs, every harvested URL still occurs, and
each kept citation is exactly the first harvested occurrence of its URL
(so the first occurrence's title — "Untitled" when the annotation had
none — wins). -/
theorem extractSearchResponse_first_occurrence_wins (r : UpstreamResponse) :
    (extractSearchResponse r).citations = dedupeCitations (harvestCitations r) ∧
    List.Sublist (dedupeCitations (harvestCitations r)) (harvestCitations r) ∧
    ((dedupeCitations (harvestCitations r)).map Citation.url).Nodup ∧
    (∀ c ∈ harvestCitations r,
      c.url ∈ (dedupeCitations (harvestCitations r)).map Citation.url) ∧
    (∀ c ∈ dedupeCitations (harvestCitations r),
      (harvestCitations r).find? (fun d => d.url == c.url) = some c) ∧
    (∀ t u : Option String,
      citationOfAnnot (.urlCitation t u)
        = [{ title := jsOrDefault t "Untitled", url := jsOrDefault u "" }]) := by
  refine ⟨rfl, dedupeCitationsAux_sublist _ [], dedupeCitationsAux_nodup _ [], ?_, ?_, ?_⟩
  · intro c hc
    exact dedupeCitationsAux_covers _ [] c hc (by simp)
  · intro c hc
    exact (dedupeCitationsAux_mem _ [] c hc).2
  · intro t u; rfl

/-- Witness for C3: a response harvesting three citations, two sharing a
URL with different titles, keeps exactly the first occurrence of each URL
in first-seen order. -/
theorem extractSearchResponse_first_occurrence_wins_witness :
    (extractSearchResponse
        { output := some [.message (some [.outputText "t"
            (some [.urlCitation (some "T1") (some "u1"),
                   .urlCitation none (some "u2"),
                   .urlCitation (some "T3") (some "u1")])])] }).citations
      = [{ title := "T1", url := "u1" }, { title := "Untitled", url := "u2" }] ∧
    (harvestCitations
        { output := some [.message (some [.outputText "t"
            (some [.urlCitation (some "T1") (some "u1"),
                   .urlCitation none (some "u2"),
                   .urlCitation (some "T3") (some "u1")])])] }).find?
        (fun d => d.url == "u1")
      = some { title := "T1", url := "u1" } := by
  constructor
  · exact (extractSearchResponse_first_occurrence_wins _).1.trans (by decide)
  · exact (extractSearchResponse_first_occurrence_wins _).2.2.2.2.1
      { title := "T1", url := "u1" } (by decide)

/-! ## Claim C4: upload strategy dispatch by extension -/

/-- **C4.** A file path whose lowercased extension is outside the fixed
allow-list always takes the inline-text path: the file content is inlined
into the user content block wrapped in a fenced code block tagged with the
extension, and the returned file id is the sentinel `"inline"`.  A path
whose extension is in the allow-list takes the Files-API path and returns
the provider's reusable file id. -/
theorem uploadFile_extension_dispatch (filePath fileContent : String)
    (query : Option String) (providerFileId : String) (up : UpstreamResponse) :
    (lowerStr (extname filePath) ∉ UPLOAD_SUPPORTED_EXTENSIONS →
      uploadRoute filePath = .inlineText ∧
      (uploadFile filePath fileContent query providerFileId up).1.fileId = "inline" ∧
      (uploadFile filePath fileContent query providerFileId up).1.text = extractText up ∧
      (uploadFile filePath fileContent query providerFileId up).2
        = some (inlineFullPrompt filePath fileContent query) ∧
      inlineFullPrompt filePath fileContent query
        = "File: " ++ basenameStr filePath ++ "\n\n```" ++ inlineExtTag filePath
            ++ "\n" ++ fileContent ++ "\n```\n\n" ++ promptTextOf query) ∧
    (lowerStr (extname filePath) ∈ UPLOAD_SUPPORTED_EXTENSIONS →
      uploadRoute filePath = .filesApi ∧
      (uploadFile filePath fileContent query providerFileId up).1.fileId = providerFileId ∧
      (uploadFile filePath fileContent query providerFileId up).2 = none) := by
  constructor
  · intro h
    refine ⟨by simp [uploadRoute, h], by simp [uploadFile, h], by simp [uploadFile, h],
      by simp [uploadFile, h], ?_⟩
    simp only [inlineFullPrompt, String.append_assoc]
  · intro h
    refine ⟨by simp [uploadRoute, h], ?_, ?_⟩ <;>
      by_cases hq : jsTruthyStr query = false <;>
        simp [uploadFile, h, hq]

/-- Witness for C4: a `.ts` path (not in the allow-list) routes inline
with file id `"inline"`; a `.md` path routes through the Files API and
returns the provider id. -/
theorem uploadFile_extension_dispatch_witness :
    uploadRoute "/src/app/main.ts" = .inlineText ∧
    (uploadFile "/src/app/main.ts" "let x = 1" none "file-abc"
        { output := none }).1.fileId = "inline" ∧
    uploadRoute "/docs/notes.md" = .filesApi ∧
    (uploadFile "/docs/notes.md" "# notes" none "file-abc"
        { output := none }).1.fileId = "file-abc" :=
  ⟨((uploadFile_extension_dispatch "/src/app/main.ts" "let x = 1" none "file-abc"
      { output := none }).1 (by decide)).1,
   ((uploadFile_extension_dispatch "/src/app/main.ts" "let x = 1" none "file-abc"
      { output := none }).1 (by decide)).2.1,
   ((uploadFile_extension_dispatch "/docs/notes.md" "# notes" none "file-abc"
      { output := none }).2 (by decide)).1,
   ((uploadFile_extension_dispatch "/docs/notes.md" "# notes" none "file-abc"
      { output := none }).2 (by decide)).2.1⟩

/-! ## Claim C5: zero-image results are errors, never empty successes -/

/-- **C5.** When the normalized image result contains zero images, both
the `generate_image` and the `edit_image` handler return `isError = true`
with a safety-filter-oriented message (and perform no disk write); an
empty-content success reply is never produced. -/
theorem zero_images_is_error_reply (spArg : Option String) (outputDir now : String)
    (result : ImageGenerationResponse) (h : result.images = []) :
    generateImageReply spArg outputDir now result
      = ({ content := [ContentItem.text noImageGeneratedMsg], isError := true }, []) ∧
    editImageReply spArg outputDir now result
      = ({ content := [ContentItem.text noEditedImageMsg], isError := true }, []) ∧
    strContainsSubstr noImageGeneratedMsg "safety filter" = true ∧
    strContainsSubstr noEditedImageMsg "safety filter" = true := by
  rcases result with ⟨imgs⟩
  cases imgs with
  | nil => exact ⟨rfl, rfl, by decide, by decide⟩
  | cons a l => simp at h

/-- Witness for C5: the concrete zero-image replies. -/
theorem zero_images_is_error_reply_witness :
    generateImageReply none "./generated-media" "2026-01-01T00:00:00.000Z" { images := [] }
      = ({ content := [ContentItem.text noImageGeneratedMsg], isError := true }, []) ∧
    editImageReply none "./generated-media" "2026-01-01T00:00:00.000Z" { images := [] }
      = ({ content := [ContentItem.text noEditedImageMsg], isError := true }, []) ∧
    strContainsSubstr noImageGeneratedMsg "safety filter" = true ∧
    strContainsSubstr noEditedImageMsg "safety filter" = true :=
  zero_images_is_error_reply none "./generated-media" "2026-01-01T00:00:00.000Z"
    { images := [] } rfl

/-! ## Claim C6: save-path computation of the generate_image handler -/

theorem jsTruthyStr_of_ne (s : String) (h : s ≠ "") : jsTruthyStr (some s) = true := by
  simp only [jsTruthyStr, Bool.not_eq_true']
  cases hd : s.data with
  | nil => exact absurd (String.ext hd) h
  | cons a l => rfl

theorem dropWhile_ne_head (x c : Char) (t : List Char) :
    ∀ l : List Char, l.dropWhile (· ≠ x) = c :: t → c = x := by
  intro l
  induction l with
  | nil => intro h; simp [List.dropWhile] at h
  | cons a as ih =>
    intro h
    rw [List.dropWhile_cons] at h
    by_cases ha : a = x
    · rw [if_neg (by simp [ha])] at h
      injection h with h1 _
      exact h1.symm.trans ha
    · rw [if_pos (by simp [ha])] at h
      exact ih h

theorem split_at_last_dot (cs bRev pre : List Char)
    (hb : bRev = cs.reverse.takeWhile (· ≠ '/'))
    (hp : pre = bRev.takeWhile (· ≠ '.'))
    (hne : pre.length ≠ bRev.length) :
    ∃ front : List Char,
      cs = front ++ ('.' :: pre.reverse) ∧
      front.length + (pre.length + 1) = cs.length := by
  have h1 : bRev ++ cs.reverse.dropWhile (· ≠ '/') = cs.reverse := by
    rw [hb]; exact List.takeWhile_append_dropWhile _ _
  have h2 : pre ++ bRev.dropWhile (· ≠ '.') = bRev := by
    rw [hp]; exact List.takeWhile_append_dropWhile _ _
  cases hr2 : bRev.dropWhile (· ≠ '.') with
  | nil =>
    rw [hr2, List.append_nil] at h2
    exact absurd (by rw [h2]) hne
  | cons c t =>
    have hc : c = '.' := dropWhile_ne_head '.' c t bRev hr2
    subst hc
    rw [hr2] at h2
    refine ⟨(cs.reverse.dropWhile (· ≠ '/')).reverse ++ t.reverse, ?_, ?_⟩
    · calc cs = cs.reverse.reverse := (List.reverse_reverse cs).symm
        _ = (bRev ++ cs.reverse.dropWhile (· ≠ '/')).reverse := by rw [h1]
        _ = (cs.reverse.dropWhile (· ≠ '/')).reverse ++ bRev.reverse :=
            List.reverse_append _ _
        _ = (cs.reverse.dropWhile (· ≠ '/')).reverse ++ (pre ++ '.' :: t).reverse := by
            rw [h2]
        _ = ((cs.reverse.dropWhile (· ≠ '/')).reverse ++ t.reverse) ++ ('.' :: pre.reverse) := by
            simp [List.reverse_append, List.reverse_cons, List.append_assoc]
    · have hlen : cs.length = ((cs.reverse.dropWhile (· ≠ '/')).reverse ++ t.reverse).length
          + (pre.length + 1) := by
        conv_lhs =>
          rw [show cs = ((cs.reverse.dropWhile (· ≠ '/')).reverse ++ t.reverse)
                ++ ('.' :: pre.reverse) from by
            calc cs = cs.reverse.reverse := (List.reverse_reverse cs).symm
              _ = (bRev ++ cs.reverse.dropWhile (· ≠ '/')).reverse := by rw [h1]
              _ = (cs.reverse.dropWhile (· ≠ '/')).reverse ++ bRev.reverse :=
                  List.reverse_append _ _
              _ = (cs.reverse.dropWhile (· ≠ '/')).reverse ++ (pre ++ '.' :: t).reverse := by
                  rw [h2]
              _ = ((cs.reverse.dropWhile (· ≠ '/')).reverse ++ t.reverse)
                    ++ ('.' :: pre.reverse) := by
                  simp [List.reverse_append, List.reverse_cons, List.append_assoc]]
        simp [List.length_append, List.length_reverse]
        omega
      omega

theorem take_append_exact (cs front ext : List Char) (hcs : cs = front ++ ext) :
    cs.take (cs.length - ext.length) ++ ext = cs := by
  subst hcs
  have hl : (front ++ ext).length - ext.length = front.length := by
    simp [List.length_append]
  rw [hl, List.take_left]

theorem extname_append (sp : String) (h : extname sp ≠ "") :
    sliceToNegEnd sp (extname sp).data.length ++ extname sp = sp := by
  have hext_eq : extname sp
      = if ((sp.data.reverse.takeWhile (· ≠ '/')).takeWhile (· ≠ '.')).length
            = (sp.data.reverse.takeWhile (· ≠ '/')).length then ""
        else if ((sp.data.reverse.takeWhile (· ≠ '/')).takeWhile (· ≠ '.')).length + 1
            = (sp.data.reverse.takeWhile (· ≠ '/')).length then ""
        else ⟨'.' :: ((sp.data.reverse.takeWhile (· ≠ '/')).takeWhile (· ≠ '.')).reverse⟩ :=
    rfl
  by_cases h1 : ((sp.data.reverse.takeWhile (· ≠ '/')).takeWhile (· ≠ '.')).length
      = (sp.data.reverse.takeWhile (· ≠ '/')).length
  · rw [hext_eq, if_pos h1] at h
    exact absurd rfl h
  · by_cases h2 : ((sp.data.reverse.takeWhile (· ≠ '/')).takeWhile (· ≠ '.')).length + 1
        = (sp.data.reverse.takeWhile (· ≠ '/')).length
    · rw [hext_eq, if_neg h1, if_pos h2] at h
      exact absurd rfl h
    · have hext : extname sp
          = ⟨'.' :: ((sp.data.reverse.takeWhile (· ≠ '/')).takeWhile (· ≠ '.')).reverse⟩ := by
        rw [hext_eq, if_neg h1, if_neg h2]
      obtain ⟨front, hcs, hlen⟩ := split_at_last_dot sp.data _ _ rfl rfl h1
      apply String.ext
      rw [hext, String.data_append]
      show sp.data.take (sp.data.length
            - ('.' :: ((sp.data.reverse.takeWhile (· ≠ '/')).takeWhile (· ≠ '.')).reverse).length)
          ++ ('.' :: ((sp.data.reverse.takeWhile (· ≠ '/')).takeWhile (· ≠ '.')).reverse)
          = sp.data
      exact take_append_exact sp.data front _ hcs

theorem genImageSavePath_multi (sp : String) (n : Nat) (od now : String) (i : Nat)
    (hsp : sp ≠ "") (hn : n ≠ 1) :
    genImageSavePath (some sp) n od now i
      = sliceToNegEnd sp (extname sp).data.length ++ "_" ++ decRepr i ++ extname sp := by
  have hb := jsTruthyStr_of_ne sp hsp
  simp only [genImageSavePath]
  rw [if_neg (fun hcon => hn hcon.2), if_pos hb]
  rfl

theorem append_decRepr_injective (a b : String) {i j : Nat}
    (h : a ++ decRepr i ++ b = a ++ decRepr j ++ b) : i = j := by
  apply decRepr_injective
  apply String.ext
  have hd := congrArg String.data h
  simp only [String.data_append] at hd
  exact List.append_cancel_left (List.append_cancel_right hd)

/-- **C6 (amended).** For a non-empty explicit save path and more than one
image, the computed save paths are pairwise distinct; when the explicit
path has a non-empty extension each path is the explicit path with
`_{index}` (0-indexed) inserted immediately before the extension; when the
extension is empty the JS `slice(0, -0)` pitfall drops the base and the
path is just `_{index}`; with one image the explicit path is used
unchanged; with no explicit path the auto-generated
`{outputDir}/{prefix}-{sanitized timestamp}.png` path is used. -/
theorem generate_image_save_paths (sp : String) (n : Nat) (outputDir now : String) :
    (∀ i j : Nat, sp ≠ "" → 1 < n → i ≠ j →
      genImageSavePath (some sp) n outputDir now i
        ≠ genImageSavePath (some sp) n outputDir now j) ∧
    (∀ i : Nat, sp ≠ "" → 1 < n → extname sp ≠ "" →
      genImageSavePath (some sp) n outputDir now i
          = sliceToNegEnd sp (extname sp).data.length ++ "_" ++ decRepr i ++ extname sp ∧
        sliceToNegEnd sp (extname sp).data.length ++ extname sp = sp) ∧
    (∀ i : Nat, sp ≠ "" → 1 < n → extname sp = "" →
      genImageSavePath (some sp) n outputDir now i = "_" ++ decRepr i) ∧
    (∀ i : Nat, sp ≠ "" → genImageSavePath (some sp) 1 outputDir now i = sp) ∧
    (∀ i : Nat, genImageSavePath none n outputDir now i
        = outputDir ++ "/" ++ ("generated" ++ "-" ++ sanitizeTs now ++ "." ++ "png")) := by
  refine ⟨?_, ?_, ?_, ?_, ?_⟩
  · intro i j hsp hn hij heq
    rw [genImageSavePath_multi sp n outputDir now i hsp (by omega),
        genImageSavePath_multi sp n outputDir now j hsp (by omega)] at heq
    exact hij (append_decRepr_injective
      (sliceToNegEnd sp (extname sp).data.length ++ "_") (extname sp) heq)
  · intro i hsp hn hext
    exact ⟨genImageSavePath_multi sp n outputDir now i hsp (by omega),
           extname_append sp hext⟩
  · intro i hsp hn hext
    rw [genImageSavePath_multi sp n outputDir now i hsp (by omega), hext]
    show sliceToNegEnd sp 0 ++ "_" ++ decRepr i ++ "" = "_" ++ decRepr i
    rw [sliceToNegEnd, if_pos rfl]
    simp
  · intro i hsp
    simp [genImageSavePath, jsTruthyStr_of_ne sp hsp]
  · intro i
    rfl

/-- Counterexample for C6 as stated: with the explicit save path
`"output"` (no extension) and two images, the code computes `"_0"` — the
base of the explicit path is dropped, not suffixed. -/
theorem generate_image_save_paths_counterexample :
    genImageSavePath (some "output") 2 "./generated-media" "2026-01-01T00:00:00.000Z" 0
        = "_0" ∧
    ("_0" : String) ≠ "output_0" := by
  constructor
  · decide
  · decide

/-- Witness for C6 (amended): two images with explicit path `"img.png"`
get the distinct paths `img_0.png` and `img_1.png`. -/
theorem generate_image_save_paths_witness :
    genImageSavePath (some "img.png") 2 "od" "ts" 0
        ≠ genImageSavePath (some "img.png") 2 "od" "ts" 1 ∧
    genImageSavePath (some "img.png") 2 "od" "ts" 0 = "img_0.png" :=
  ⟨(generate_image_save_paths "img.png" 2 "od" "ts").1 0 1 (by decide) (by omega) (by omega),
   ((generate_image_save_paths "img.png" 2 "od" "ts").2.1 0 (by decide) (by omega)
      (by decide)).1.trans (by decide)⟩

/-! ## Claim C7: persistence of media payloads -/

theorem genImageLoop_cons (spArg : Option String) (n : Nat) (od now : String)
    (i : Nat) (a : GenImage) (rest : List GenImage) :
    genImageLoop spArg n od now i (a :: rest)
      = (ContentItem.image a.b64 "image/png"
           :: ContentItem.text (genImageText i (genImageSavePath spArg n od now i) a.revisedPrompt)
           :: (genImageLoop spArg n od now (i + 1) rest).1,
         (genImageSavePath spArg n od now i, a.b64)
           :: (genImageLoop spArg n od now (i + 1) rest).2) := rfl

theorem genImageLoop_writes (spArg : Option String) (n : Nat) (od now : String) :
    ∀ (l : List GenImage) (i : Nat),
      (genImageLoop spArg n od now i l).2
        = (List.enumFrom i l).map
            (fun p => (genImageSavePath spArg n od now p.1, p.2.b64)) := by
  intro l
  induction l with
  | nil => intro i; rfl
  | cons a rest ih =>
    intro i
    rw [genImageLoop_cons]
    show _ = ((i, a) :: List.enumFrom (i + 1) rest).map
        (fun p => (genImageSavePath spArg n od now p.1, p.2.b64))
    rw [List.map_cons, ih (i + 1)]

theorem genImageLoop_content_mem (spArg : Option String) (n : Nat) (od now : String) :
    ∀ (l : List GenImage) (i k : Nat) (img : GenImage),
      (k, img) ∈ List.enumFrom i l →
      ContentItem.image img.b64 "image/png" ∈ (genImageLoop spArg n od now i l).1 ∧
      ContentItem.text (genImageText k (genImageSavePath spArg n od now k) img.revisedPrompt)
        ∈ (genImageLoop spArg n od now i l).1 := by
  intro l
  induction l with
  | nil => intro i k img h; simp [List.enumFrom] at h
  | cons a rest ih =>
    intro i k img h
    rw [show List.enumFrom i (a :: rest) = (i, a) :: List.enumFrom (i + 1) rest from rfl] at h
    rw [genImageLoop_cons]
    rcases List.mem_cons.mp h with heq | hmem
    · injection heq with h1 h2
      subst h1
      subst h2
      exact ⟨List.mem_cons_self _ _, List.mem_cons_of_mem _ (List.mem_cons_self _ _)⟩
    · obtain ⟨hi, ht⟩ := ih (i + 1) k img hmem
      exact ⟨List.mem_cons_of_mem _ (List.mem_cons_of_mem _ hi),
             List.mem_cons_of_mem _ (List.mem_cons_of_mem _ ht)⟩

/-- **C7 (amended).** The `generate_image` handler persists every payload
of the normalized result — one disk write per image, at that image's
computed save path — and its reply contains, for every image, both the
inline binary and a text part naming the saved path; the reply is not an
error.  The `edit_image` handler, by contrast, persists only the first
payload of the result and its reply contains only that first payload's
binary and saved path: payloads after the first are neither saved nor
returned. -/
theorem media_payload_persistence (spArg : Option String) (outputDir now : String)
    (result : ImageGenerationResponse) (h : result.images ≠ []) :
    ((generateImageReply spArg outputDir now result).2
        = result.images.enum.map
            (fun p => (genImageSavePath spArg result.images.length outputDir now p.1,
                       p.2.b64))) ∧
    (generateImageReply spArg outputDir now result).1.isError = false ∧
    (∀ (k : Nat) (img : GenImage), (k, img) ∈ result.images.enum →
      ContentItem.image img.b64 "image/png"
          ∈ (generateImageReply spArg outputDir now result).1.content ∧
      ContentItem.text (genImageText k
          (genImageSavePath spArg result.images.length outputDir now k) img.revisedPrompt)
        ∈ (generateImageReply spArg outputDir now result).1.content) ∧
    (∀ (img : GenImage) (rest : List GenImage), result.images = img :: rest →
      (editImageReply spArg outputDir now result).2
          = [((if jsTruthyStr spArg = true then spArg.getD ""
               else getAutoSavePath outputDir "edited" "png" now), img.b64)] ∧
      (editImageReply spArg outputDir now result).1.content
          = [ContentItem.image img.b64 "image/png",
             ContentItem.text (editImageText
               (if jsTruthyStr spArg = true then spArg.getD ""
                else getAutoSavePath outputDir "edited" "png" now) img.revisedPrompt)]) := by
  rcases result with ⟨imgs⟩
  cases imgs with
  | nil => exact absurd rfl h
  | cons a l =>
    have hne : (a :: l).length ≠ 0 := by simp
    have hgen : generateImageReply spArg outputDir now ⟨a :: l⟩
        = ({ content := (genImageLoop spArg (a :: l).length outputDir now 0 (a :: l)).1,
             isError := false },
           (genImageLoop spArg (a :: l).length outputDir now 0 (a :: l)).2) := by
      rw [generateImageReply, if_neg hne]
    refine ⟨?_, ?_, ?_, ?_⟩
    · rw [hgen]
      exact genImageLoop_writes spArg (a :: l).length outputDir now (a :: l) 0
    · rw [hgen]
    · intro k img hk
      rw [hgen]
      exact genImageLoop_content_mem spArg (a :: l).length outputDir now (a :: l) 0 k img hk
    · intro img rest hi
      simp only at hi
      rw [hi]
      exact ⟨rfl, rfl⟩

/-- Counterexample for C7 as stated: on an edit result with two payloads
the `edit_image` handler performs exactly one disk write — the second
payload `"B"` is never persisted. -/
theorem media_payload_persistence_counterexample :
    (editImageReply none "od" "ts"
        { images := [{ b64 := "A", revisedPrompt := none },
                     { b64 := "B", revisedPrompt := none }] }).2.length = 1 ∧
    ({ images := [{ b64 := "A", revisedPrompt := none },
                  { b64 := "B", revisedPrompt := none }] } :
        ImageGenerationResponse).images.length = 2 ∧
    "B" ∉ (editImageReply none "od" "ts"
        { images := [{ b64 := "A", revisedPrompt := none },
                     { b64 := "B", revisedPrompt := none }] }).2.map Prod.snd := by
  refine ⟨rfl, rfl, ?_⟩
  decide

/-- Witness for C7 (amended): with two images and explicit path
`img.png`, `generate_image` writes both payloads to `img_0.png` and
`img_1.png`, while `edit_image` writes only the first payload. -/
theorem media_payload_persistence_witness :
    (generateImageReply (some "img.png") "od" "ts"
        { images := [{ b64 := "A", revisedPrompt := none },
                     { b64 := "B", revisedPrompt := none }] }).2
      = [("img_0.png", "A"), ("img_1.png", "B")] ∧
    (editImageReply (some "edit.png") "od" "ts"
        { images := [{ b64 := "A", revisedPrompt := none },
                     { b64 := "B", revisedPrompt := none }] }).2
      = [("edit.png", "A")] := by
  constructor
  · exact (media_payload_persistence (some "img.png") "od" "ts"
      { images := [{ b64 := "A", revisedPrompt := none },
                   { b64 := "B", revisedPrompt := none }] } (by decide)).1.trans (by decide)
  · exact ((media_payload_persistence (some "edit.png") "od" "ts"
      { images := [{ b64 := "A", revisedPrompt := none },
                   { b64 := "B", revisedPrompt := none }] } (by decide)).2.2.2
      { b64 := "A", revisedPrompt := none }
      [{ b64 := "B", revisedPrompt := none }] rfl).1.trans (by decide)

/-! ## Claim C9: a response with no output_text yields an empty-text success -/

/-- Is a content part an `output_text` part? -/
def partIsOutputText : ContentPart → Bool
  | .outputText _ _ => true
  | .otherPart => false

/-- Does an output item contain an `output_text` content part reachable by
the extractor (a `message` item with a present `content` array)? -/
def itemHasOutputText : OutputItem → Bool
  | .message (some parts) => parts.any partIsOutputText
  | _ => false

/-- Does the response contain any `output_text` part at all? -/
def responseHasOutputText (r : UpstreamResponse) : Bool :=
  (r.output.getD []).any itemHasOutputText

theorem itemTexts_eq_nil (it : OutputItem) (h : itemHasOutputText it = false) :
    itemTexts it = [] := by
  cases it with
  | message content =>
    cases content with
    | none => rfl
    | some parts =>
      have hall := List.any_eq_false.mp h
      simp only [itemTexts]
      rw [List.flatten_eq_nil_iff]
      intro xs hxs
      obtain ⟨p, hp, rfl⟩ := List.mem_map.mp hxs
      cases p with
      | outputText t anns => exact absurd rfl (hall _ hp)
      | otherPart => rfl
  | webSearchCall => rfl
  | reasoning s => rfl
  | codeInterpreterCall c rs => rfl
  | otherItem => rfl

/-- **C9.** When the upstream response's output sequence contains no
message item with an `output_text` content part, the text extractor
returns the empty string, and the `ask` handler's reply is a non-error
success carrying that empty text — unlike the zero-image case, an empty
text result is not reported as an error. -/
theorem extractText_empty_success (r : UpstreamResponse)
    (h : responseHasOutputText r = false) :
    extractText r = "" ∧
    askReply (extractText r)
      = { content := [ContentItem.text ""], isError := false } := by
  have htext : extractText r = "" := by
    cases hout : r.output with
    | none => rw [extractText, hout]
    | some items =>
      have hany : items.any itemHasOutputText = false := by
        rw [responseHasOutputText, hout] at h
        exact h
      have hall := List.any_eq_false.mp hany
      have hflat : (items.map itemTexts).flatten = [] := by
        rw [List.flatten_eq_nil_iff]
        intro xs hxs
        obtain ⟨it, hit, rfl⟩ := List.mem_map.mp hxs
        exact itemTexts_eq_nil it (by simpa using hall it hit)
      rw [extractText, hout]
      simp [hflat]
  exact ⟨htext, by rw [htext]; rfl⟩

/-- Witness for C9: a response holding only reasoning, web-search-call and
content-less message items extracts `""` and the `ask` reply is a
non-error success. -/
theorem extractText_empty_success_witness :
    extractText
        { output := some [.reasoning (some [.summaryText "thinking"]),
                          .webSearchCall, .message none] } = "" ∧
    askReply (extractText
        { output := some [.reasoning (some [.summaryText "thinking"]),
                          .webSearchCall, .message none] })
      = { content := [ContentItem.text ""], isError := false } :=
  extractText_empty_success
    { output := some [.reasoning (some [.summaryText "thinking"]),
                      .webSearchCall, .message none] } (by decide)

/-! ## Claim C10: image extraction keeps exactly the items with a payload -/

/-- **C10.** The image-result extraction shared by `generateImage` and
`editImage` keeps exactly the upstream data items carrying a (truthy)
`b64_json` payload: every normalized image's `b64` comes from such an
item (with its revised prompt), every payload-carrying item contributes
its payload, and when no item carries a payload the result is empty — in
which case the `generate_image` handler takes the zero-image error path. -/
theorem extractImages_exactly_payload_items (r : UpstreamImagesResponse) :
    (∀ img ∈ extractImages r, ∃ d ∈ r.data.getD [],
      d.b64_json = some img.b64 ∧ img.b64 ≠ "" ∧ d.revised_prompt = img.revisedPrompt) ∧
    (∀ d ∈ r.data.getD [], ∀ b : String, d.b64_json = some b → b ≠ "" →
      b ∈ (extractImages r).map GenImage.b64) ∧
    ((∀ d ∈ r.data.getD [], jsTruthyStr d.b64_json = false) →
      extractImages r = [] ∧
      ∀ (spArg : Option String) (outputDir now : String),
        (generateImageReply spArg outputDir now { images := extractImages r }).1.isError
          = true) := by
  cases hd : r.data with
  | none =>
    refine ⟨?_, ?_, ?_⟩
    · intro img himg; rw [extractImages, hd] at himg; simp at himg
    · intro d hdm; simp at hdm
    · intro _
      have he : extractImages r = [] := by rw [extractImages, hd]
      exact ⟨he, fun spArg outputDir now => by rw [he]; rfl⟩
  | some ds =>
    have hx : extractImages r = ds.filterMap (fun d =>
        if jsTruthyStr d.b64_json = true then
          some { b64 := d.b64_json.getD "", revisedPrompt := d.revised_prompt }
        else none) := by
      rw [extractImages, hd]
    refine ⟨?_, ?_, ?_⟩
    · intro img himg
      rw [hx] at himg
      obtain ⟨d, hdm, hf⟩ := List.mem_filterMap.mp himg
      by_cases ht : jsTruthyStr d.b64_json = true
      · rw [if_pos ht] at hf
        injection hf with hf
        subst hf
        cases hb : d.b64_json with
        | none => rw [hb] at ht; exact absurd ht (by decide)
        | some s =>
          have hsne : s ≠ "" := by
            intro hemp
            rw [hb, hemp] at ht
            exact absurd ht (by decide)
          refine ⟨d, hdm, ?_, ?_, rfl⟩
          · show d.b64_json = some s
            exact hb
          · show s ≠ ""
            exact hsne
      · rw [if_neg ht] at hf
        exact absurd hf (by simp)
    · intro d hdm b hb hbne
      have ht : jsTruthyStr d.b64_json = true := by
        rw [hb]
        simp only [jsTruthyStr, Bool.not_eq_true']
        cases hs : b.data with
        | nil => exact absurd (String.ext hs) hbne
        | cons c cs => rfl
      rw [hx]
      refine List.mem_map.mpr ⟨{ b64 := d.b64_json.getD "", revisedPrompt := d.revised_prompt },
        List.mem_filterMap.mpr ⟨d, hdm, by rw [if_pos ht]⟩, ?_⟩
      show d.b64_json.getD "" = b
      rw [hb]
      rfl
    · intro hnone
      have he : extractImages r = [] := by
        rw [hx, List.filterMap_eq_nil_iff]
        intro d hdm
        have hft := hnone d hdm
        simp [hft]
      exact ⟨he, fun spArg outputDir now => by rw [he]; rfl⟩

/-- Witness for C10: of three upstream items — one with payload `"X"`, one
with an absent `b64_json`, one with an empty-string `b64_json` — only the
first survives extraction; an all-payload-less response yields the
zero-image error reply. -/
theorem extractImages_exactly_payload_items_witness :
    "X" ∈ (extractImages
        { data := some [{ b64_json := some "X", revised_prompt := some "rp" },
                        { b64_json := none, revised_prompt := none },
                        { b64_json := some "", revised_prompt := none }] }).map
        GenImage.b64 ∧
    extractImages { data := some [{ b64_json := none, revised_prompt := none },
                                  { b64_json := some "", revised_prompt := none }] } = [] ∧
    (generateImageReply none "od" "ts"
        { images := extractImages
            { data := some [{ b64_json := none, revised_prompt := none },
                            { b64_json := some "", revised_prompt := none }] } }).1.isError
      = true := by
  refine ⟨?_, ?_, ?_⟩
  · exact (extractImages_exactly_payload_items
      { data := some [{ b64_json := some "X", revised_prompt := some "rp" },
                      { b64_json := none, revised_prompt := none },
                      { b64_json := some "", revised_prompt := none }] }).2.1
      { b64_json := some "X", revised_prompt := some "rp" } (by decide) "X" rfl (by decide)
  · exact ((extractImages_exactly_payload_items
      { data := some [{ b64_json := none, revised_prompt := none },
                      { b64_json := some "", revised_prompt := none }] }).2.2
      (by decide)).1
  · exact ((extractImages_exactly_payload_items
      { data := some [{ b64_json := none, revised_prompt := none },
                      { b64_json := some "", revised_prompt := none }] }).2.2
      (by decide)).2 none "od" "ts"

/-! ## Claim C8: startup configuration validation -/

/-- **C8 (code evaluation).** The loader rejects a missing credential and a
parsed timeout `<= 0`, and defaults an unset timeout to 60000 — but a
non-numeric timeout string parses to `NaN` (here `none`), and since
`NaN <= 0` is false in JavaScript the validation passes, so `loadConfig`
succeeds with a timeout that is not a positive integer, contradicting the
claimed fatal failure for every non-positive-integer timeout. -/
theorem loadConfig_nan_timeout_accepted :
    loadConfig { OPENAI_API_KEY := some "sk-test", OPENAI_DEFAULT_MODEL := none,
                 OPENAI_TIMEOUT := some "abc", OPENAI_OUTPUT_DIR := none }
      = .ok { apiKey := "sk-test", defaultModel := "gpt-4.1", timeout := none,
              outputDir := "./generated-media" } ∧
    loadConfig { OPENAI_API_KEY := none, OPENAI_DEFAULT_MODEL := none,
                 OPENAI_TIMEOUT := none, OPENAI_OUTPUT_DIR := none }
      = .error "OpenAI API key not configured. Please set the OPENAI_API_KEY environment variable." ∧
    loadConfig { OPENAI_API_KEY := some "sk-test", OPENAI_DEFAULT_MODEL := none,
                 OPENAI_TIMEOUT := some "0", OPENAI_OUTPUT_DIR := none }
      = .error "OPENAI_TIMEOUT must be a positive number" ∧
    loadConfig { OPENAI_API_KEY := some "sk-test", OPENAI_DEFAULT_MODEL := none,
                 OPENAI_TIMEOUT := some "-5", OPENAI_OUTPUT_DIR := none }
      = .error "OPENAI_TIMEOUT must be a positive number" ∧
    loadConfig { OPENAI_API_KEY := some "sk-test", OPENAI_DEFAULT_MODEL := none,
                 OPENAI_TIMEOUT := none, OPENAI_OUTPUT_DIR := none }
      = .ok { apiKey := "sk-test", defaultModel := "gpt-4.1", timeout := some 60000,
              outputDir := "./generated-media" } :=
  ⟨rfl, rfl, rfl, rfl, rfl⟩
